import Mathlib

/-!
Verification of the EVA care-orchestration engine (Go source) against its
natural-language specification.  The Go code is shallowly embedded: each
relevant function is translated into an executable Lean definition over an
explicit store/state, external services (the push provider, token
validation) are passed in as boolean-valued functions, and SQL statements
become pure list transformations.  Timestamps are integers (seconds for the
store layer, milliseconds for the audio link, matching the units the source
uses at each site).
-/

namespace Eva

/-! ## Data model (tables `idosos`, `cuidadores`, `agendamentos`, `alertas`,
`historico_ligacoes`, `timeline`), from the SQL used in the source. -/

/-- Row of `idosos` (the monitored Subject). -/
structure Idoso where
  id : Nat
  nome : String
  cpf : String
  ativo : Bool
  deviceToken : Option String
  deviceTokenValido : Bool
  deriving Repr, DecidableEq

/-- Row of `cuidadores` (Caregiver). -/
structure Cuidador where
  idosoId : Nat
  deviceToken : Option String
  telefone : Option String
  email : Option String
  prioridade : Nat
  ativo : Bool
  deriving Repr, DecidableEq

/-- Row of `agendamentos` (Schedule).  `dataHoraAgendada` in seconds. -/
structure Agendamento where
  id : Nat
  idosoId : Nat
  dataHoraAgendada : Int
  status : String
  tentativasRealizadas : Nat
  ultimaTentativa : Option Int
  medicamentoConfirmado : Bool
  dataHoraRealizada : Option Int
  deriving Repr, DecidableEq

/-- Row of `alertas` (Alert).  Columns not named in an INSERT keep their
schema defaults: `enviado=false`, `visualizado=false`,
`necessita_escalamento=false`, `tempo_escalamento=NULL`,
`tentativas_envio=0`. -/
structure Alerta where
  id : Nat
  idosoId : Nat
  ligacaoId : Option Nat
  tipo : String
  severidade : String
  mensagem : String
  destinatarios : Option String
  enviado : Bool
  visualizado : Bool
  necessitaEscalamento : Bool
  tempoEscalamento : Option Int
  tentativasEnvio : Nat
  ultimaTentativa : Option Int
  dataEnvio : Option Int
  criadoEm : Int
  deriving Repr, DecidableEq

/-- Row of `historico_ligacoes` (CallRecord). -/
structure HistoricoLigacao where
  id : Nat
  agendamentoId : Nat
  idosoId : Nat
  inicioChamada : Int
  fimChamada : Int
  duracaoSegundos : Nat
  tarefaConcluida : Bool
  motivoFalha : String
  transcricao : String
  criadoEm : Int
  deriving Repr, DecidableEq

/-- Row of `timeline` (TimelineEntry). -/
structure TimelineEntry where
  idosoId : Nat
  tipo : String
  subtipo : String
  titulo : String
  descricao : String
  data : Int
  deriving Repr, DecidableEq

/-- Row of `historico_medicamentos` (medication adherence log). -/
structure MedLogEntry where
  idosoId : Nat
  medicamento : String
  tomadoEm : Int
  deriving Repr, DecidableEq

/-- The relational store, as the lists of rows the embedded functions touch,
plus the sequence counters behind `RETURNING id`. -/
structure Store where
  idosos : List Idoso
  cuidadores : List Cuidador
  agendamentos : List Agendamento
  alertas : List Alerta
  historico : List HistoricoLigacao
  timeline : List TimelineEntry
  medLog : List MedLogEntry
  nextAlertaId : Nat
  nextHistoricoId : Nat
  deriving Repr, DecidableEq

/-- Statement `UPDATE alertas ... WHERE id = $1` as a pointwise map. -/
def updateAlerta (st : Store) (aid : Nat) (f : Alerta → Alerta) : Store :=
  { st with alertas := st.alertas.map (fun a => if a.id == aid then f a else a) }

/-- Statement `UPDATE agendamentos ... WHERE id = $1` as a pointwise map. -/
def updateAgendamento (st : Store) (sid : Nat) (f : Agendamento → Agendamento) : Store :=
  { st with agendamentos := st.agendamentos.map (fun s => if s.id == sid then f s else s) }

/-- Query `SELECT nome FROM idosos WHERE id = $1` (first matching row). -/
def findIdoso (st : Store) (idosoId : Nat) : Option Idoso :=
  st.idosos.find? (fun i => i.id == idosoId)

/-! ## Tool executor: `AlertFamilyWithSeverity` (tools.go).

The caregiver query joins `cuidadores` with `idosos`
(`WHERE c.idoso_id = $1 AND c.ativo = true ORDER BY c.prioridade ASC`);
every returned row carries the same `i.nome`.  The push provider is the
boolean function `pushOk` on device tokens. -/

/-- One row of the caregiver query in `AlertFamilyWithSeverity`. -/
structure CaregiverRow where
  token : Option String
  phone : Option String
  email : Option String
  priority : Nat
  elderName : String
  deriving Repr, DecidableEq

/-- Insertion sort by ascending priority, modelling `ORDER BY prioridade ASC`. -/
def insertByPriority (r : CaregiverRow) : List CaregiverRow → List CaregiverRow
  | [] => [r]
  | x :: xs => if r.priority ≤ x.priority then r :: x :: xs else x :: insertByPriority r xs

def sortByPriority : List CaregiverRow → List CaregiverRow
  | [] => []
  | x :: xs => insertByPriority x (sortByPriority xs)

/-- The caregiver query of `AlertFamilyWithSeverity`:
`SELECT c.device_token, c.telefone, c.email, c.prioridade, i.nome FROM
cuidadores c JOIN idosos i ON i.id = c.idoso_id WHERE c.idoso_id = $1 AND
c.ativo = true ORDER BY c.prioridade ASC`. -/
def caregiversQuery (st : Store) (idosoId : Nat) : List CaregiverRow :=
  sortByPriority <|
    (st.cuidadores.filter (fun c => c.idosoId == idosoId && c.ativo)).filterMap
      (fun c =>
        (findIdoso st idosoId).map (fun i =>
          { token := c.deviceToken, phone := c.telefone, email := c.email
            priority := c.prioridade, elderName := i.nome }))

/-- Result of a tool-executor call: the store after all writes, and the Go
return value (`nil` or an error string). -/
structure AFResult where
  store : Store
  result : Except String Unit
  deriving Repr

/-- The push loop of `AlertFamilyWithSeverity`: for each token, call
`SendAlertNotification`; on success increment the counter and mark the
alert row `enviado = true, data_envio = NOW()`. -/
def alertPushLoop (pushOk : String → Bool) (now : Int) (aid : Nat) :
    List String → Store → Nat → Store × Nat
  | [], st, cnt => (st, cnt)
  | t :: ts, st, cnt =>
    if pushOk t then
      alertPushLoop pushOk now aid ts
        (updateAlerta st aid (fun a => { a with enviado := true, dataEnvio := some now }))
        (cnt + 1)
    else
      alertPushLoop pushOk now aid ts st cnt

/-- Function `AlertFamilyWithSeverity(db, pushService, idosoID, reason, severity)`:
1. query active caregivers; if none, return the error `no caregivers
registered` (no write has happened);
2. `INSERT INTO alertas (idoso_id, tipo, severidade, mensagem, visualizado,
criado_em) VALUES ($1, familia, $2, $3, false, NOW()) RETURNING id`;
3. push to every caregiver with a non-empty token, counting successes;
4. if no push succeeded, mark `necessita_escalamento = true` and bump
`tentativas_envio`, then return an error (the critical-severity step below
is NOT reached);
5. otherwise, if `severity = critica`, set `necessita_escalamento = true`
and `tempo_escalamento = NOW() + 5 minutes`. -/
def alertFamilyWithSeverity (pushOk : String → Bool) (now : Int) (st : Store)
    (idosoId : Nat) (reason severity : String) : AFResult :=
  let caregivers := caregiversQuery st idosoId
  if caregivers.isEmpty then
    { store := st, result := .error ("no caregivers registered") }
  else
    let aid := st.nextAlertaId
    let newAlert : Alerta :=
      { id := aid, idosoId := idosoId, ligacaoId := none, tipo := "familia"
        severidade := severity, mensagem := reason, destinatarios := none
        enviado := false, visualizado := false, necessitaEscalamento := false
        tempoEscalamento := none, tentativasEnvio := 0, ultimaTentativa := none
        dataEnvio := none, criadoEm := now }
    let st := { st with alertas := st.alertas ++ [newAlert], nextAlertaId := aid + 1 }
    let tokens := caregivers.filterMap (fun c =>
      match c.token with
      | some t => if t == "" then none else some t
      | none => none)
    let (st, successCount) := alertPushLoop pushOk now aid tokens st 0
    if successCount == 0 then
      let st := updateAlerta st aid (fun a =>
        { a with necessitaEscalamento := true
                 tentativasEnvio := a.tentativasEnvio + 1
                 ultimaTentativa := some now })
      { store := st, result := .error ("all push notifications failed, alert needs escalation") }
    else
      let st :=
        if severity == "critica" then
          updateAlerta st aid (fun a =>
            { a with necessitaEscalamento := true
                     tempoEscalamento := some (now + 300) })
        else st
      { store := st, result := .ok () }

/-- Function `AlertFamily` delegates to `AlertFamilyWithSeverity` with severity `alta`. -/
def alertFamily (pushOk : String → Bool) (now : Int) (st : Store)
    (idosoId : Nat) (reason : String) : AFResult :=
  alertFamilyWithSeverity pushOk now st idosoId reason ("alta")

/-! ## Tool executor dispatch (`executeTool` in the session handler).

The handler extracts only `args["reason"].(string)` (resp.
`args["medication_name"].(string)`) from the function-call record; a missing
or non-string value yields the Go zero value `""`.  The `severity` argument
is never read: the `alert_family` case calls `AlertFamily`, which hardcodes
severity `alta`. -/

/-- A provider function-call record with the arguments the schema declares. -/
structure FnCall where
  name : String
  reasonArg : Option String
  severityArg : Option String
  medicationArg : Option String
  deriving Repr, DecidableEq

/-- Go map-lookup-with-type-assertion `args["k"].(string)`: the zero value
`""` when absent. -/
def argString (o : Option String) : String := o.getD ("")

/-- Function `ConfirmMedication(db, pushService, idosoID, medicationName)`:
insert into `historico_medicamentos`; set the `em_andamento` schedule of today to
`concluido` with `medicamento_confirmado = true`; best-effort pushes to the
active caregivers (failures swallowed).  `DATE(x) = CURRENT_DATE` is
modelled as equality of floored days. -/
def confirmMedication (now : Int) (st : Store) (idosoId : Nat)
    (medicationName : String) : Store :=
  let st := { st with medLog := st.medLog ++
    [({ idosoId := idosoId, medicamento := medicationName, tomadoEm := now } : MedLogEntry)] }
  { st with agendamentos := st.agendamentos.map (fun (s : Agendamento) =>
      if s.idosoId == idosoId && s.dataHoraAgendada / 86400 == now / 86400 &&
         s.status == "em_andamento" then
        { s with medicamentoConfirmado := true, status := "concluido" }
      else s) }

/-- Function `executeTool(client, fnCall)`: dispatch on the tool name; errors from the
tool bodies are logged and swallowed, never surfaced upstream. -/
def executeTool (pushOk : String → Bool) (now : Int) (st : Store)
    (idosoId : Nat) (fnCall : FnCall) : Store :=
  if fnCall.name == "alert_family" then
    (alertFamily pushOk now st idosoId (argString fnCall.reasonArg)).store
  else if fnCall.name == "confirm_medication" then
    confirmMedication now st idosoId (argString fnCall.medicationArg)
  else st

/-! ## Escalation pass: `CheckUnacknowledgedAlerts` (tools.go), run from the
scheduler slow tick.

The selection is `visualizado = false AND necessita_escalamento = true AND
tempo_escalamento <= NOW() AND severidade IN (critica, alta)` (a NULL
`tempo_escalamento` never satisfies `<= NOW()`).  For each selected alert
the source only logs, leaves the telephony call as a TODO comment, and
updates `tentativas_envio = tentativas_envio + 1, ultima_tentativa = NOW(),
tempo_escalamento = NOW() + INTERVAL of 10 minutes`; no delivery channel of
any kind is attempted.  The second component of the result records the
delivery attempts the pass makes (channel, recipient): it is always empty. -/

/-- Selection predicate of the `CheckUnacknowledgedAlerts` query. -/
def alertaQualifies (now : Int) (a : Alerta) : Bool :=
  !a.visualizado && a.necessitaEscalamento &&
    (match a.tempoEscalamento with
     | some t => decide (t ≤ now)
     | none => false) &&
    (a.severidade == "critica" || a.severidade == "alta")

/-- One `CheckUnacknowledgedAlerts` pass: bump the counters of every
selected alert and push its `tempo_escalamento` ten minutes out; the list of
delivery attempts made is empty (the fallback tiers are unimplemented). -/
def checkUnacknowledgedAlerts (now : Int) (st : Store) :
    Store × List (String × String) :=
  ({ st with alertas := st.alertas.map (fun (a : Alerta) =>
      if alertaQualifies now a then
        { a with tentativasEnvio := a.tentativasEnvio + 1
                 ultimaTentativa := some now
                 tempoEscalamento := some (now + 600) }
      else a) },
   [])

/-! ## Scheduler fast tick (scheduler.go): `checkAndTriggerCalls` and
`checkMissedCalls`, plus the two other places that write a Schedule status:
`ConfirmMedication` (above) and the register watchdog in the PCM session
handler.  Each is modelled per row; the pass functions fold the row
functions over the selected rows. -/

/-- Selection of `checkAndTriggerCalls`: `a.status = agendado AND
a.data_hora_agendada <= $1 AND i.ativo = true` (the idoso joined by id). -/
def fireDueSelected (now : Int) (st : Store) (s : Agendamento) : Bool :=
  s.status == "agendado" && decide (s.dataHoraAgendada ≤ now) &&
    (match findIdoso st s.idosoId with
     | some i => i.ativo
     | none => false)

/-- Per-row body of `checkAndTriggerCalls`: no token → `falha_sem_token`;
invalid token → `falha_token_invalido` (and the token of the idoso flagged
invalid, done at the pass level); push failure → `falha_envio`; push sent →
`em_andamento` with `ultima_tentativa = NOW()`. -/
def fireDueUpdate (validate pushOk : String → Bool) (now : Int)
    (tok : Option String) (s : Agendamento) : Agendamento :=
  match tok with
  | none => { s with status := "falha_sem_token" }
  | some t =>
    if t == "" then { s with status := "falha_sem_token" }
    else if !(validate t) then { s with status := "falha_token_invalido" }
    else if !(pushOk t) then { s with status := "falha_envio" }
    else { s with status := "em_andamento", ultimaTentativa := some now }

/-- One selected row of `checkAndTriggerCalls` applied to the store:
the status write plus the `device_token_valido = false` writeback on an
invalid token. -/
def fireDueRow (validate pushOk : String → Bool) (now : Int) (st : Store)
    (s : Agendamento) : Store :=
  let tok := (findIdoso st s.idosoId).bind (fun i => i.deviceToken)
  let st :=
    match tok with
    | some t =>
      if t != "" && !(validate t) then
        { st with idosos := st.idosos.map (fun i =>
            if i.id == s.idosoId then { i with deviceTokenValido := false } else i) }
      else st
    | none => st
  updateAgendamento st s.id (fun _ => fireDueUpdate validate pushOk now tok s)

/-- Pass `checkAndTriggerCalls`: process the selected schedules, `LIMIT 10`. -/
def checkAndTriggerCalls (validate pushOk : String → Bool) (now : Int)
    (st : Store) : Store :=
  ((st.agendamentos.filter (fireDueSelected now st)).take 10).foldl
    (fireDueRow validate pushOk now) st

/-- Selection of `checkMissedCalls`: `a.status = em_andamento AND
a.data_hora_agendada < (NOW() - INTERVAL of 45 seconds)` — strict, so a
schedule at exactly `now - 45` is not selected. -/
def missedCallSelected (now : Int) (s : Agendamento) : Bool :=
  s.status == "em_andamento" && decide (s.dataHoraAgendada < now - 45)

/-- Query `SELECT ... FROM cuidadores WHERE idoso_id = ... AND ativo AND
prioridade = 1` (the LEFT JOIN row of `checkMissedCalls`). -/
def primaryCaregiver (st : Store) (idosoId : Nat) : Option Cuidador :=
  st.cuidadores.find? (fun c => c.idosoId == idosoId && c.ativo && c.prioridade == 1)

/-- Rendering `time.Now().Format("15:04")`, on seconds-since-epoch. -/
def formatHM (now : Int) : String :=
  toString ((now / 3600) % 24) ++ ":" ++ toString ((now / 60) % 60)

/-- One selected row of `checkMissedCalls`, in source order:
1. `UPDATE agendamentos SET status = nao_atendido, ultima_tentativa =
NOW(), tentativas_realizadas = tentativas_realizadas + 1`;
2. insert the synthetic `historico_ligacoes` row (`inicio = NOW() - 45 s`,
`fim = NOW()`, `duracao_segundos = 45`, `tarefa_concluida = false`);
3. insert the `alertas` row (`tipo = nao_atende_telefone`, `severidade =
aviso`, `enviado = false`, `data_envio = NOW()`);
4. insert the `timeline` row;
5. push to the primary caregiver when it has a token: on success mark the
alert `enviado = true`, on failure set `necessita_escalamento = true,
tempo_escalamento = NOW() + 5 minutes`.
The notification step (5) is factored into `missedCallNotify`; the
caregiver token comes from the LEFT JOIN at the head of the pass. -/
def missedCallNotify (pushOk : String → Bool) (now : Int) (aid : Nat)
    (tokenCuidador : Option String) (st : Store) : Store :=
  match tokenCuidador with
  | some t =>
    if t != "" then
      if pushOk t then
        updateAlerta st aid (fun a => { a with enviado := true })
      else
        updateAlerta st aid (fun a =>
          { a with necessitaEscalamento := true, tempoEscalamento := some (now + 300) })
    else st
  | none => st

def missedCallRow (pushOk : String → Bool) (now : Int) (st : Store)
    (s : Agendamento) : Store :=
  let nomeIdoso := ((findIdoso st s.idosoId).map (fun i => i.nome)).getD ("")
  let tokenCuidador := (primaryCaregiver st s.idosoId).bind (fun c => c.deviceToken)
  let st := updateAgendamento st s.id (fun a =>
    { a with status := "nao_atendido", ultimaTentativa := some now
             tentativasRealizadas := a.tentativasRealizadas + 1 })
  let hid := st.nextHistoricoId
  let st := { st with
    historico := st.historico ++
      [({ id := hid, agendamentoId := s.id, idosoId := s.idosoId
          inicioChamada := now - 45, fimChamada := now, duracaoSegundos := 45
          tarefaConcluida := false
          motivoFalha := "Chamada não atendida pelo idoso após 45 segundos"
          transcricao := "Push notification enviado mas não houve resposta do dispositivo. Idoso: " ++ nomeIdoso
          criadoEm := now } : HistoricoLigacao)]
    nextHistoricoId := hid + 1 }
  let aid := st.nextAlertaId
  let st := { st with
    alertas := st.alertas ++
      [({ id := aid, idosoId := s.idosoId, ligacaoId := some hid
          tipo := "nao_atende_telefone", severidade := "aviso"
          mensagem := nomeIdoso ++ " não atendeu a chamada programada da EVA às " ++ formatHM now
          destinatarios := some ("[\"cuidador\"]"), enviado := false, visualizado := false
          necessitaEscalamento := false, tempoEscalamento := none
          tentativasEnvio := 0, ultimaTentativa := none
          dataEnvio := some now, criadoEm := now } : Alerta)]
    nextAlertaId := aid + 1 }
  let st := { st with
    timeline := st.timeline ++
      [({ idosoId := s.idosoId, tipo := "ligacao", subtipo := "nao_atendida"
          titulo := "Chamada Não Atendida"
          descricao := "EVA tentou contato com " ++ nomeIdoso ++ " mas a chamada não foi atendida."
          data := now } : TimelineEntry)]}
  missedCallNotify pushOk now aid tokenCuidador st

/-- Pass `checkMissedCalls`: process every selected schedule. -/
def checkMissedCalls (pushOk : String → Bool) (now : Int) (st : Store) : Store :=
  (st.agendamentos.filter (missedCallSelected now)).foldl (missedCallRow pushOk now) st

/-- The register watchdog of the PCM session handler: on a successful
`register`, `UPDATE agendamentos SET status = em_chamada,
data_hora_realizada = NOW() WHERE idoso_id = $1 AND status IN (agendado,
em_andamento, aguardando_atendimento) AND data_hora_agendada >= NOW() -
INTERVAL of 10 minutes`, as the per-row function. -/
def registerWatchdogRow (idosoId : Nat) (now : Int) (s : Agendamento) : Agendamento :=
  if s.idosoId == idosoId &&
     (s.status == "agendado" || s.status == "em_andamento" ||
      s.status == "aguardando_atendimento") &&
     decide (now - 600 ≤ s.dataHoraAgendada) then
    { s with status := "em_chamada", dataHoraRealizada := some now }
  else s

/-- Per-row status write of `ConfirmMedication` (same update as in
`confirmMedication`, factored for the transition theorems). -/
def confirmMedicationRow (idosoId : Nat) (now : Int) (s : Agendamento) : Agendamento :=
  if s.idosoId == idosoId && s.dataHoraAgendada / 86400 == now / 86400 &&
     s.status == "em_andamento" then
    { s with medicamentoConfirmado := true, status := "concluido" }
  else s

/-- Per-row status write of `checkAndTriggerCalls` including its selection
guard (factored for the transition theorems). -/
def fireDueRowStatus (validate pushOk : String → Bool) (now : Int) (st : Store)
    (tok : Option String) (s : Agendamento) : Agendamento :=
  if fireDueSelected now st s then fireDueUpdate validate pushOk now tok s else s

/-- Per-row status write of `checkMissedCalls` including its selection guard
(factored for the transition theorems). -/
def missedCallRowStatus (now : Int) (s : Agendamento) : Agendamento :=
  if missedCallSelected now s then
    { s with status := "nao_atendido", ultimaTentativa := some now
             tentativasRealizadas := s.tentativasRealizadas + 1 }
  else s

/-- The status values of the Schedule DAG of the specification:
pending, in-progress, completed, unanswered and the three failure states. -/
def specStatuses : List String :=
  ["agendado", "em_andamento", "concluido", "nao_atendido",
   "falha_sem_token", "falha_token_invalido", "falha_envio"]

/-- Terminal statuses of the DAG of the specification. -/
def terminalStatuses : List String :=
  ["concluido", "nao_atendido", "falha_sem_token", "falha_token_invalido", "falha_envio"]

/-- The status transitions the embedded program actually performs
(old status, new status), for writes that change the status. -/
def observedTransitions : List (String × String) :=
  [("agendado", "em_andamento"),
   ("agendado", "falha_sem_token"),
   ("agendado", "falha_token_invalido"),
   ("agendado", "falha_envio"),
   ("agendado", "em_chamada"),
   ("em_andamento", "nao_atendido"),
   ("em_andamento", "concluido"),
   ("em_andamento", "em_chamada"),
   ("aguardando_atendimento", "em_chamada")]

/-! ## Push Dispatcher payloads (firebase.go).

Each send builds a Firebase message whose `Data` field is a string map;
modelled as the association list of its key/value pairs, in source order.
`AndroidConfig.Priority` is transport configuration, not a data key. -/

/-- Data payload of `SendCallNotification(deviceToken, sessionID, elderName)`. -/
def callNotificationData (sessionId : String) (now : Int) : List (String × String) :=
  [("type", "incoming_call"),
   ("sessionId", sessionId),
   ("action", "START_VOICE_CALL"),
   ("priority", "high"),
   ("timestamp", toString now)]

/-- Data payload of `SendAlertNotification(deviceToken, elderName, reason)`
(the family alert). -/
def alertNotificationData (reason : String) (now nowNano : Int) : List (String × String) :=
  [("type", "emergency_alert"),
   ("reason", reason),
   ("priority", "high"),
   ("timestamp", toString now),
   ("alert_id", "alert-" ++ toString nowNano)]

/-- Data payload of `SendMedicationConfirmation(deviceToken, elderName,
medicationName)`. -/
def medicationConfirmationData (medicationName : String) (now : Int) :
    List (String × String) :=
  [("type", "medication_confirmed"),
   ("medication", medicationName),
   ("timestamp", toString now)]

/-- Data payload of `SendMissedCallAlert(deviceToken, elderName)`. -/
def missedCallAlertData (elderName : String) (now : Int) : List (String × String) :=
  [("type", "missed_call_alert"),
   ("elder_name", elderName),
   ("priority", "high"),
   ("timestamp", toString now)]

/-- Whether a payload carries a given key. -/
def hasKey (k : String) (d : List (String × String)) : Bool :=
  d.any (fun kv => kv.1 == k)

/-! ## Session registry (main.go `registerClient` and the PCM fork
`handleRegister`).

A session handle carries its cancellation flag and whether its transport was
closed; the registry is the map from CPF to the session id, with Go map
assignment modelled as replace-or-append.  Subject lookup
(`GetIdosoByCPF`) is the environment function `lookup`. -/

/-- Per-session handle: the cancellation token state and the transport state. -/
structure SessionH where
  sid : Nat
  cancelled : Bool
  connClosed : Bool
  deriving Repr, DecidableEq

/-- The process-wide session state: every live handle, and the registry
`clients : map[string]*PCMClient` keyed by CPF. -/
structure SessionState where
  sessions : List SessionH
  clients : List (String × Nat)
  deriving Repr, DecidableEq

/-- The Go map assignment `m[k] = v`: replace the binding if the key is present,
append it otherwise. -/
def mapAssign (k : String) (v : Nat) : List (String × Nat) → List (String × Nat)
  | [] => [(k, v)]
  | (k0, v0) :: rest =>
    if k0 == k then (k0, v) :: rest else (k0, v0) :: mapAssign k v rest

/-- The Go map lookup `m[k]`. -/
def mapLookup (k : String) : List (String × Nat) → Option Nat
  | [] => none
  | (k0, v0) :: rest => if k0 == k then some v0 else mapLookup k rest

/-- Function `registerClient` in main.go: resolve the Subject by CPF (failing the
register on a miss) and store the new session in the registry.  The prior
session for that CPF, if any, is neither cancelled nor closed — the map
entry is simply overwritten. -/
def registerClientMain (lookup : String → Option Idoso) (state : SessionState)
    (newSid : Nat) (cpf : String) : SessionState :=
  match lookup cpf with
  | none => state
  | some idoso => { state with clients := mapAssign idoso.cpf newSid state.clients }

/-- Function `handleRegister` in the PCM session handler: resolve the Subject; under
the registry lock, if a session already exists for the CPF, trip its
cancellation token (`existingClient.cancel()`) and close its transport
(`existingClient.Conn.Close()`), then store the new session. -/
def handleRegisterPcm (lookup : String → Option Idoso) (state : SessionState)
    (newSid : Nat) (cpf : String) : SessionState :=
  match lookup cpf with
  | none => state
  | some idoso =>
    let state :=
      match mapLookup idoso.cpf state.clients with
      | some oldSid =>
        { state with sessions := state.sessions.map (fun (h : SessionH) =>
            if h.sid == oldSid then { h with cancelled := true, connClosed := true } else h) }
      | none => state
    { state with clients := mapAssign idoso.cpf newSid state.clients }

/-! ## AI Link upload buffering (gemini client, the fork with the
parameters of §4.2 of the spec).

Buffer state and the three buffer operations, plus the events that drive
them (chunk arrival from the ingress channel, the 100 ms ticker, an
upstream response, a transport send error).  Bytes are `Nat`s; times are
milliseconds.  `maxBufferSize` appears in the source only as the initial
capacity of the slice — no code path compares the buffer length against
it. -/

def minChunkSize : Nat := 1600
def maxBufferSize : Nat := 16000
def minSendInterval : Int := 100
def processingTimeout : Int := 5000

/-- The mutable state of the upload path: the unsent buffer, the in-flight
flag `isProcessing`, and `lastSendTime`. -/
structure LinkState where
  audioBuffer : List Nat
  isProcessing : Bool
  lastSendTime : Int
  deriving Repr, DecidableEq

/-- State at client creation: empty buffer, not in flight,
`lastSendTime = time.Now()` (the creation instant, taken as 0). -/
def initLinkState : LinkState :=
  { audioBuffer := [], isProcessing := false, lastSendTime := 0 }

/-- Function `flushBuffer`: nothing to do on an empty buffer; skip when in flight;
otherwise swap the buffer out, raise the in-flight flag, stamp
`lastSendTime` and emit the swapped-out bytes as one upstream send. -/
def flushBuffer (now : Int) (st : LinkState) : LinkState × Option (List Nat) :=
  if st.audioBuffer.isEmpty then (st, none)
  else if st.isProcessing then (st, none)
  else ({ audioBuffer := [], isProcessing := true, lastSendTime := now },
        some st.audioBuffer)

/-- Function `bufferAudio`: append the chunk; flush when the buffer has reached
`minChunkSize`. -/
def bufferAudio (now : Int) (st : LinkState) (chunk : List Nat) :
    LinkState × Option (List Nat) :=
  let st := { st with audioBuffer := st.audioBuffer ++ chunk }
  if minChunkSize ≤ st.audioBuffer.length then flushBuffer now st else (st, none)

/-- Function `flushBufferIfReady` (the ticker body): flush when the buffer is
non-empty, at least `minSendInterval` has passed since the last send, and
either not in flight or in flight for more than `processingTimeout`
(in which case the flag is force-cleared first). -/
def flushBufferIfReady (now : Int) (st : LinkState) : LinkState × Option (List Nat) :=
  if st.audioBuffer.isEmpty then (st, none)
  else if now - st.lastSendTime < minSendInterval then (st, none)
  else
    let st :=
      if st.isProcessing && decide (now - st.lastSendTime > processingTimeout) then
        { st with isProcessing := false }
      else st
    flushBuffer now st

/-- Events of the upload path: a chunk handed off by the ingress channel, a
ticker tick, an upstream response (`ReadResponse` clears the in-flight
flag), a transport send error (`sendAudioInternal` clears it too). -/
inductive AudioEvent where
  | chunk (now : Int) (data : List Nat)
  | tick (now : Int)
  | upstreamResponse
  | sendFailure
  deriving Repr, DecidableEq

/-- One step of the upload path, returning the bytes flushed (if any). -/
def linkStep (st : LinkState) : AudioEvent → LinkState × Option (List Nat)
  | .chunk now d => bufferAudio now st d
  | .tick now => flushBufferIfReady now st
  | .upstreamResponse => ({ st with isProcessing := false }, none)
  | .sendFailure => ({ st with isProcessing := false }, none)

/-- Run an event sequence from a state, collecting every flush. -/
def linkRun (st : LinkState) : List AudioEvent → LinkState × List (List Nat)
  | [] => (st, [])
  | e :: es =>
    let (st, out) := linkStep st e
    let (st, outs) := linkRun st es
    (st, (match out with | some b => [b] | none => []) ++ outs)

/-! ## The recursive substring helper of `containsEnglishMarkers`
(gemini client).

`contains(text, substr)` is
`len(text) >= len(substr) && (text[:len(substr)] == substr ||
contains(text[1:], substr))`, with the short-circuit Go `&&`/`||`.  The
recursive call is reached only when the prefix test fails, which forces
`substr` non-empty and hence `text` non-empty, so the recursion is on a
strictly shorter `text`.  (On the unreachable empty-`text` branch the Go
`text[1:]` would be the empty slice; the model returns `false` there.) -/

def containsGo : List Char → List Char → Bool
  | text, substr =>
    if substr.length ≤ text.length then
      if text.take substr.length == substr then true
      else
        match text with
        | [] => false
        | _ :: rest => containsGo rest substr
    else false

/-- Helper `contains` on Go strings. -/
def containsStr (text substr : String) : Bool :=
  containsGo text.data substr.data

/-- The apostrophe character (code point 39), used in two marker words. -/
def apos : Char := Char.ofNat 39

/-- The word list of `containsEnglishMarkers` (the fourth and fifth words
are I-apostrophe-ve and I-apostrophe-m). -/
def englishWords : List String :=
  ["Embracing", "User", "Interaction",
   String.mk (['I', apos] ++ ['v', 'e']), String.mk (['I', apos] ++ ['m']),
   "Offering", "welcome", "registered", "greeting"]

/-- Function `containsEnglishMarkers(text)`: any of the marker words occurs. -/
def containsEnglishMarkers (text : String) : Bool :=
  englishWords.any (fun w => containsStr text w)

/-! ## Concrete fixtures for the witness and counterexample theorems. -/

/-- A Subject with an active device token. -/
def idosoMaria : Idoso :=
  { id := 1, nome := "Maria", cpf := "11122233344", ativo := true
    deviceToken := some ("tokM"), deviceTokenValido := true }

/-- The primary caregiver of Maria, with a valid push token. -/
def cuidadorJoao : Cuidador :=
  { idosoId := 1, deviceToken := some ("tokC"), telefone := some ("5599")
    email := some ("mail"), prioridade := 1, ativo := true }

/-- A store with no rows at all. -/
def emptyStore : Store :=
  { idosos := [], cuidadores := [], agendamentos := [], alertas := []
    historico := [], timeline := [], medLog := []
    nextAlertaId := 1, nextHistoricoId := 1 }

/-- Store of scenario S3: Maria with one active caregiver. -/
def storeS3 : Store :=
  { emptyStore with idosos := [idosoMaria], cuidadores := [cuidadorJoao] }

/-- A critical family alert that is unacknowledged, flagged for escalation,
and whose escalation time has passed. -/
def alertaC2 : Alerta :=
  { id := 7, idosoId := 1, ligacaoId := none, tipo := "familia"
    severidade := "critica", mensagem := "dor no peito", destinatarios := none
    enviado := false, visualizado := false, necessitaEscalamento := true
    tempoEscalamento := some 0, tentativasEnvio := 0, ultimaTentativa := none
    dataEnvio := none, criadoEm := 0 }

/-- Store of scenario S4: the stale critical alert above. -/
def storeC2 : Store := { storeS3 with alertas := [alertaC2] }

/-- An in-progress Schedule fired at time 0 (scenario S2). -/
def agS2 : Agendamento :=
  { id := 2, idosoId := 1, dataHoraAgendada := 0, status := "em_andamento"
    tentativasRealizadas := 0, ultimaTentativa := none
    medicamentoConfirmado := false, dataHoraRealizada := none }

/-- Store of scenario S2: Maria, her caregiver, and the in-progress Schedule. -/
def storeS2 : Store := { storeS3 with agendamentos := [agS2] }

/-- A pending Schedule (status `agendado`) at time 0. -/
def agPending : Agendamento := { agS2 with id := 3, status := "agendado" }

/-- A completed Schedule (terminal status `concluido`). -/
def agDone : Agendamento := { agS2 with id := 4, status := "concluido" }

/-! # Theorems -/

/-! ## C10 — error atomicity of `alert_family` without caregivers -/

/-- C10: if the Subject has no active Caregivers, `AlertFamilyWithSeverity`
returns the error `no caregivers registered` and the store is unchanged —
no Alert row is inserted on this path. -/
theorem alertFamily_no_caregivers_atomic (pushOk : String → Bool) (now : Int)
    (st : Store) (idosoId : Nat) (reason severity : String)
    (h : caregiversQuery st idosoId = []) :
    alertFamilyWithSeverity pushOk now st idosoId reason severity =
      { store := st, result := .error ("no caregivers registered") } := by
  unfold alertFamilyWithSeverity
  simp [h]

/-- Witness for C10 at a store with no caregivers. -/
theorem alertFamily_no_caregivers_atomic_witness :
    caregiversQuery emptyStore 1 = [] ∧
    alertFamilyWithSeverity (fun _ => true) 0 emptyStore 1 ("ajuda") ("alta") =
      { store := emptyStore, result := .error ("no caregivers registered") } :=
  ⟨rfl, alertFamily_no_caregivers_atomic (fun _ => true) 0 emptyStore 1 ("ajuda") ("alta") rfl⟩

/-! ## C1 — the executor drops the severity argument -/

/-- C1 (failing input): the `alert_family` case of `executeTool` reads only
`args["reason"]` and calls `AlertFamily`, which hardcodes severity `alta`;
a call carrying severity `critica` therefore stores an Alert with severity
`alta`, not `critica`, contradicting the claim that the stored severity
equals the severity argument. -/
theorem executeTool_ignores_severity :
    ((executeTool (fun _ => true) 0 storeS3 1
        { name := "alert_family", reasonArg := some ("dor no peito")
          severityArg := some ("critica"), medicationArg := none }).alertas.map
      (fun a => a.severidade)) = ["alta"] ∧ ("alta" : String) ≠ "critica" := by
  exact ⟨by decide, by decide⟩

/-! ## C4 — critical alert with zero push successes keeps a null escalation-at -/

/-- C4 (failing input): when every push fails, `AlertFamilyWithSeverity`
marks the alert `necessita_escalamento = true` and returns early with an
error; the `severity = critica` step that would set
`tempo_escalamento = now + 5 min` is never reached, so the stored critical
alert has `tempo_escalamento = NULL` — contradicting the claim that
`escalation-at = now + 5m` is set in every outcome. -/
theorem alertFamily_critical_zero_success_null_escalation :
    ((alertFamilyWithSeverity (fun _ => false) 0 storeS3 1
        ("dor no peito") ("critica")).store.alertas.map
      (fun a => (a.severidade, a.necessitaEscalamento, a.tempoEscalamento)))
      = [("critica", true, none)] ∧
    (alertFamilyWithSeverity (fun _ => false) 0 storeS3 1
        ("dor no peito") ("critica")).result =
      .error ("all push notifications failed, alert needs escalation") := by
  exact ⟨by decide, rfl⟩

/-! ## C2 — the escalation pass attempts no delivery tier -/

/-- C2 (counterexample): a critical, unacknowledged alert whose escalation
time has passed qualifies for the pass, yet the pass performs zero delivery
attempts — the fallback-tier attempt the claim describes does not happen
(the source leaves it as a TODO comment). -/
theorem escalate_stale_no_tier_attempt :
    alertaQualifies 1000 alertaC2 = true ∧
    (checkUnacknowledgedAlerts 1000 storeC2).2 = [] := by
  exact ⟨by decide, rfl⟩

/-- C2 (amended): a single `CheckUnacknowledgedAlerts` pass attempts no
delivery tier at all (the fallback chain is unimplemented), but for every
selected alert — `acknowledged = false`, `needs-escalation = true`,
`escalation-at ≤ now`, severity critical or high — it increments the
attempts counter, stamps the last attempt, and sets
`escalation-at = now + 10 min`. -/
theorem escalate_stale_updates (now : Int) (st : Store) :
    (checkUnacknowledgedAlerts now st).2 = [] ∧
    ∀ a ∈ st.alertas, alertaQualifies now a = true →
      { a with tentativasEnvio := a.tentativasEnvio + 1
               ultimaTentativa := some now
               tempoEscalamento := some (now + 600) } ∈
        (checkUnacknowledgedAlerts now st).1.alertas := by
  refine ⟨rfl, ?_⟩
  intro a ha hq
  have h := List.mem_map_of_mem (fun (x : Alerta) =>
    if alertaQualifies now x then
      { x with tentativasEnvio := x.tentativasEnvio + 1
               ultimaTentativa := some now
               tempoEscalamento := some (now + 600) }
    else x) ha
  simpa [checkUnacknowledgedAlerts, hq] using h

/-- Witness for the amended theorem of C2 on the stale critical alert. -/
theorem escalate_stale_updates_witness :
    (checkUnacknowledgedAlerts 1000 storeC2).2 = [] ∧
    { alertaC2 with tentativasEnvio := 1
                    ultimaTentativa := some 1000
                    tempoEscalamento := some 1600 } ∈
      (checkUnacknowledgedAlerts 1000 storeC2).1.alertas :=
  ⟨(escalate_stale_updates 1000 storeC2).1,
   (escalate_stale_updates 1000 storeC2).2 alertaC2 (by decide) (by decide)⟩

/-! ## C8 — the substring helper terminates on an empty substring -/

/-- C8 (counterexample): the claim says the recursion of `contains` fails
to terminate on an empty search substring.  In fact the short-circuit Go
`||` returns from the prefix test `text[:0] == ""` before the recursive
call, so the (faithfully embedded, total) function terminates and returns
`true`; it also evaluates on the caller `containsEnglishMarkers`. -/
theorem contains_empty_terminates :
    containsStr ("Olá, tudo bem") ("") = true ∧
    containsEnglishMarkers ("Embracing change") = true := by
  exact ⟨by decide, by decide⟩

/-- C8 (amended): the recursive substring helper is a total function; with
an empty search substring it returns `true` immediately for every text (the
prefix check succeeds before any recursion), so `containsEnglishMarkers` is
total. -/
theorem contains_empty_total (text : List Char) : containsGo text [] = true := by
  unfold containsGo
  simp

/-! ## C9 — payload keys of the Push Dispatcher -/

/-- C9 (counterexample): the data payload of `SendMedicationConfirmation`
has keys `type`, `medication`, `timestamp` only — it does not carry the
`priority` key the claim requires of every notification. -/
theorem medication_payload_missing_priority :
    hasKey ("priority") (medicationConfirmationData ("Losartana") 0) = false := by
  decide

/-- C9 (amended): every Push Dispatcher payload carries `type` and
`timestamp`; the call invite, family alert and missed-call alert also carry
`priority`, but the medication confirmation payload does not. -/
theorem push_payload_keys (sessionId reason medicationName elderName : String)
    (now nowNano : Int) :
    (hasKey ("type") (callNotificationData sessionId now) = true ∧
     hasKey ("timestamp") (callNotificationData sessionId now) = true ∧
     hasKey ("priority") (callNotificationData sessionId now) = true) ∧
    (hasKey ("type") (alertNotificationData reason now nowNano) = true ∧
     hasKey ("timestamp") (alertNotificationData reason now nowNano) = true ∧
     hasKey ("priority") (alertNotificationData reason now nowNano) = true) ∧
    (hasKey ("type") (missedCallAlertData elderName now) = true ∧
     hasKey ("timestamp") (missedCallAlertData elderName now) = true ∧
     hasKey ("priority") (missedCallAlertData elderName now) = true) ∧
    (hasKey ("type") (medicationConfirmationData medicationName now) = true ∧
     hasKey ("timestamp") (medicationConfirmationData medicationName now) = true ∧
     hasKey ("priority") (medicationConfirmationData medicationName now) = false) := by
  refine ⟨⟨?_, ?_, ?_⟩, ⟨?_, ?_, ?_⟩, ⟨?_, ?_, ?_⟩, ⟨?_, ?_, ?_⟩⟩ <;>
    simp [hasKey, callNotificationData, alertNotificationData,
          missedCallAlertData, medicationConfirmationData]

/-! ## C3 — Schedule status transitions -/

/-- A status write is accounted for: either it leaves the status unchanged
or it is one of the transitions the program performs. -/
def transitionOk (old new : String) : Bool :=
  old == new || observedTransitions.contains (old, new)

/-- C3 (counterexample): the claim fails twice on the code.  The register
watchdog writes the status `em_chamada`, which is outside the specified
status set, from `agendado`; and the fire pass enters the terminal status
`falha_sem_token` directly from `agendado` (pending), not from
`em_andamento` (in-progress). -/
theorem schedule_status_outside_dag :
    (registerWatchdogRow 1 0 agPending).status = "em_chamada" ∧
    specStatuses.contains ("em_chamada") = false ∧
    agPending.status = "agendado" ∧
    (fireDueUpdate (fun _ => true) (fun _ => true) 0 none agPending).status
      = "falha_sem_token" ∧
    terminalStatuses.contains ("falha_sem_token") = true := by
  decide

/-- C3 (amended): every status write of the program either keeps the status
or performs one of the observed transitions — pending (`agendado`) moves to
in-progress or directly to a `falha_*` terminal status in the fire pass,
in-progress moves to `nao_atendido` (missed sweep) or `concluido`
(medication confirmation), and the register watchdog moves `agendado`,
`em_andamento` or `aguardando_atendimento` to the extra status
`em_chamada`; a terminal status is never overwritten by any of the four
writers. -/
theorem schedule_status_writes (validate pushOk : String → Bool) (now : Int)
    (st : Store) (tok : Option String) (idosoId : Nat) (s : Agendamento) :
    transitionOk s.status (fireDueRowStatus validate pushOk now st tok s).status = true ∧
    transitionOk s.status (missedCallRowStatus now s).status = true ∧
    transitionOk s.status (confirmMedicationRow idosoId now s).status = true ∧
    transitionOk s.status (registerWatchdogRow idosoId now s).status = true ∧
    (terminalStatuses.contains s.status = true →
      fireDueRowStatus validate pushOk now st tok s = s ∧
      missedCallRowStatus now s = s ∧
      confirmMedicationRow idosoId now s = s ∧
      registerWatchdogRow idosoId now s = s) := by
  refine ⟨?_, ?_, ?_, ?_, ?_⟩
  · unfold fireDueRowStatus
    by_cases h : fireDueSelected now st s = true
    · have hs : s.status = "agendado" := by
        unfold fireDueSelected at h
        simp only [Bool.and_eq_true, beq_iff_eq] at h
        exact h.1.1
      rw [if_pos h]
      unfold fireDueUpdate transitionOk observedTransitions
      cases tok with
      | none => simp [hs]
      | some t =>
        dsimp only
        by_cases h1 : (t == "") = true
        · rw [if_pos h1]
          simp [hs]
        · rw [if_neg h1]
          by_cases h2 : validate t = true
          · by_cases h3 : pushOk t = true
            · simp [h2, h3, hs]
            · simp only [Bool.not_eq_true] at h3
              simp [h2, h3, hs]
          · simp only [Bool.not_eq_true] at h2
            simp [h2, hs]
    · rw [if_neg h]
      simp [transitionOk]
  · unfold missedCallRowStatus
    by_cases h : missedCallSelected now s = true
    · have hs : s.status = "em_andamento" := by
        unfold missedCallSelected at h
        simp only [Bool.and_eq_true, beq_iff_eq] at h
        exact h.1
      rw [if_pos h]
      simp [transitionOk, observedTransitions, hs]
    · rw [if_neg h]
      simp [transitionOk]
  · unfold confirmMedicationRow
    by_cases h : (s.idosoId == idosoId && s.dataHoraAgendada / 86400 == now / 86400 &&
        s.status == "em_andamento") = true
    · have hs : s.status = "em_andamento" := by
        simp only [Bool.and_eq_true, beq_iff_eq] at h
        exact h.2
      rw [if_pos h]
      simp [transitionOk, observedTransitions, hs]
    · rw [if_neg h]
      simp [transitionOk]
  · unfold registerWatchdogRow
    by_cases h : (s.idosoId == idosoId &&
        (s.status == "agendado" || s.status == "em_andamento" ||
         s.status == "aguardando_atendimento") &&
        decide (now - 600 ≤ s.dataHoraAgendada)) = true
    · have hs : s.status = "agendado" ∨ s.status = "em_andamento" ∨
          s.status = "aguardando_atendimento" := by
        simp only [Bool.and_eq_true, Bool.or_eq_true, beq_iff_eq] at h
        rcases h.1.2 with h' | h'
        · rcases h' with h'' | h''
          · exact .inl h''
          · exact .inr (.inl h'')
        · exact .inr (.inr h')
      rw [if_pos h]
      rcases hs with hs | hs | hs <;>
        simp [transitionOk, observedTransitions, hs]
    · rw [if_neg h]
      simp [transitionOk]
  · intro hterm
    have hs : s.status = "concluido" ∨ s.status = "nao_atendido" ∨
        s.status = "falha_sem_token" ∨ s.status = "falha_token_invalido" ∨
        s.status = "falha_envio" := by
      simpa [terminalStatuses] using hterm
    rcases hs with hs | hs | hs | hs | hs <;>
      exact ⟨by simp [fireDueRowStatus, fireDueSelected, hs],
             by simp [missedCallRowStatus, missedCallSelected, hs],
             by simp [confirmMedicationRow, hs],
             by simp [registerWatchdogRow, hs]⟩

/-- Witness for the amended theorem of C3: a pending Schedule without a device
token moves to `falha_sem_token`, and a completed Schedule is untouched by
all four writers. -/
theorem schedule_status_writes_witness :
    transitionOk agPending.status
      (fireDueRowStatus (fun _ => true) (fun _ => true) 0 storeS2 none agPending).status
      = true ∧
    registerWatchdogRow 1 0 agDone = agDone :=
  ⟨(schedule_status_writes (fun _ => true) (fun _ => true) 0 storeS2 none 1 agPending).1,
   ((schedule_status_writes (fun _ => true) (fun _ => true) 0 storeS2 none 1 agDone).2.2.2.2
      (by decide)).2.2.2⟩

/-! ## C5 — session registry and displacement -/

/-- Registry keys (the CPFs currently holding a session). -/
def keysOf (l : List (String × Nat)) : List String := l.map Prod.fst

/-- Go map assignment only replaces or appends: the keys are unchanged when
the key is already bound, and gain exactly the new key otherwise. -/
theorem keysOf_mapAssign (k : String) (v : Nat) (l : List (String × Nat)) :
    keysOf (mapAssign k v l) =
      if (l.any (fun p => p.1 == k)) = true then keysOf l else keysOf l ++ [k] := by
  induction l with
  | nil => simp [mapAssign, keysOf]
  | cons p rest ih =>
    obtain ⟨k0, v0⟩ := p
    by_cases h : (k0 == k) = true
    · simp [mapAssign, keysOf, h]
    · simp only [mapAssign, h]
      by_cases h2 : (rest.any (fun p => p.1 == k)) = true <;>
        simp_all [keysOf, List.any_cons]

/-- A key absent from the bindings is absent from the key list. -/
theorem not_mem_keysOf (k : String) (l : List (String × Nat))
    (h : (l.any (fun p => p.1 == k)) = false) : k ∉ keysOf l := by
  intro hmem
  simp only [keysOf, List.mem_map] at hmem
  obtain ⟨p, hp, hpk⟩ := hmem
  rw [List.any_eq_false] at h
  have := h p hp
  simp [hpk] at this

/-- Go map assignment preserves distinctness of the registry keys. -/
theorem nodup_mapAssign (k : String) (v : Nat) (l : List (String × Nat))
    (h : (keysOf l).Nodup) : (keysOf (mapAssign k v l)).Nodup := by
  rw [keysOf_mapAssign]
  by_cases hc : (l.any (fun p => p.1 == k)) = true
  · simpa [hc] using h
  · simp only [hc, if_neg]
    have hk : k ∉ keysOf l := not_mem_keysOf k l (by
      simp only [Bool.not_eq_true] at hc
      exact hc)
    simp only [Bool.false_eq_true, if_false]
    exact List.Nodup.append h (List.nodup_singleton k) (by
      intro a ha hb
      simp only [List.mem_singleton] at hb
      subst hb
      exact hk ha)

/-- C5 (counterexample): in `registerClient` of main.go, a new `register`
for a Subject with an existing session just overwrites the registry entry:
the cancellation token of the prior session is NOT tripped and its transport is
NOT closed.  Session 1 is still live after session 2 takes the registry
slot for the CPF of Maria. -/
theorem register_main_no_displacement :
    (registerClientMain
        (fun c => if c == "11122233344" then some idosoMaria else none)
        { sessions := [⟨1, false, false⟩, ⟨2, false, false⟩]
          clients := [("11122233344", 1)] }
        2 "11122233344")
      = { sessions := [⟨1, false, false⟩, ⟨2, false, false⟩]
          clients := [("11122233344", 2)] } := by
  decide

/-- C5 (amended): the registry holds at most one session per Subject (its
CPF keys stay distinct under both register paths); in the PCM handler the
prior session for the CPF is cancelled and its transport closed before the
new session is stored, while in `registerClient` of main.go the registry
entry is overwritten with the prior session left uncancelled and its
transport open. -/
theorem register_session_invariants (lookup : String → Option Idoso)
    (state : SessionState) (newSid : Nat) (cpf : String)
    (hnd : (keysOf state.clients).Nodup) :
    (keysOf (registerClientMain lookup state newSid cpf).clients).Nodup ∧
    (keysOf (handleRegisterPcm lookup state newSid cpf).clients).Nodup ∧
    (registerClientMain lookup state newSid cpf).sessions = state.sessions ∧
    (∀ idoso oldSid, lookup cpf = some idoso →
      mapLookup idoso.cpf state.clients = some oldSid →
      ∀ h ∈ (handleRegisterPcm lookup state newSid cpf).sessions,
        h.sid = oldSid → h.cancelled = true ∧ h.connClosed = true) := by
  refine ⟨?_, ?_, ?_, ?_⟩
  · unfold registerClientMain
    cases lookup cpf with
    | none => exact hnd
    | some idoso => exact nodup_mapAssign idoso.cpf newSid state.clients hnd
  · unfold handleRegisterPcm
    cases lookup cpf with
    | none => exact hnd
    | some idoso =>
      dsimp only
      cases mapLookup idoso.cpf state.clients with
      | none => exact nodup_mapAssign idoso.cpf newSid state.clients hnd
      | some oldSid => exact nodup_mapAssign idoso.cpf newSid state.clients hnd
  · unfold registerClientMain
    cases lookup cpf with
    | none => rfl
    | some idoso => rfl
  · intro idoso oldSid hlk hold h hmem hsid
    unfold handleRegisterPcm at hmem
    rw [hlk] at hmem
    dsimp only at hmem
    rw [hold] at hmem
    dsimp only at hmem
    obtain ⟨h0, hh0, rfl⟩ := List.mem_map.mp hmem
    by_cases hc : (h0.sid == oldSid) = true
    · simp [hc]
    · rw [if_neg hc] at hsid ⊢
      exact absurd (by simpa using hsid) (by simpa using hc)

/-- Lookup environment resolving the CPF of Maria. -/
def lookupMaria : String → Option Idoso :=
  fun c => if c == "11122233344" then some idosoMaria else none

/-- Session state with one registered session (id 1) for Maria and a fresh
unregistered session (id 2). -/
def stateC5 : SessionState :=
  { sessions := [⟨1, false, false⟩, ⟨2, false, false⟩]
    clients := [("11122233344", 1)] }

/-- Witness for the amended theorem of C5: keys stay distinct, and the
displaced session handle (id 1), which after the PCM register is the
member ⟨1, true, true⟩ of the session list, is cancelled and closed. -/
theorem register_session_invariants_witness :
    (keysOf (handleRegisterPcm lookupMaria stateC5 2 "11122233344").clients).Nodup ∧
    (SessionH.cancelled ⟨1, true, true⟩ = true ∧
     SessionH.connClosed ⟨1, true, true⟩ = true) :=
  ⟨(register_session_invariants lookupMaria stateC5 2 "11122233344" (by decide)).2.1,
   (register_session_invariants lookupMaria stateC5 2 "11122233344" (by decide)).2.2.2
     idosoMaria 1 (by decide) (by decide) ⟨1, true, true⟩ (by decide) rfl⟩

/-! ## C6 — the missed-call sweep -/

/-- The notification step of the sweep never touches schedules, call
records or the timeline, and rewrites alerts only pointwise, preserving
subject, kind and severity. -/
theorem missedCallNotify_fields (pushOk : String → Bool) (now : Int)
    (aid : Nat) (tok : Option String) (st : Store) :
    (missedCallNotify pushOk now aid tok st).agendamentos = st.agendamentos ∧
    (missedCallNotify pushOk now aid tok st).historico = st.historico ∧
    (missedCallNotify pushOk now aid tok st).timeline = st.timeline ∧
    ∀ a ∈ st.alertas, ∃ a' ∈ (missedCallNotify pushOk now aid tok st).alertas,
      a'.idosoId = a.idosoId ∧ a'.tipo = a.tipo ∧ a'.severidade = a.severidade := by
  unfold missedCallNotify
  cases tok with
  | none =>
    exact ⟨rfl, rfl, rfl, fun a ha => ⟨a, ha, rfl, rfl, rfl⟩⟩
  | some t =>
    dsimp only
    by_cases h1 : (t != "") = true
    · rw [if_pos h1]
      by_cases h2 : pushOk t = true
      · rw [if_pos h2]
        refine ⟨rfl, rfl, rfl, fun a ha => ?_⟩
        refine ⟨_, List.mem_map_of_mem _ ha, ?_⟩
        by_cases hc : (a.id == aid) = true <;> simp [updateAlerta, hc]
      · rw [if_neg h2]
        refine ⟨rfl, rfl, rfl, fun a ha => ?_⟩
        refine ⟨_, List.mem_map_of_mem _ ha, ?_⟩
        by_cases hc : (a.id == aid) = true <;> simp [updateAlerta, hc]
    · rw [if_neg h1]
      exact ⟨rfl, rfl, rfl, fun a ha => ⟨a, ha, rfl, rfl, rfl⟩⟩

/-- C6 (counterexample): one sweep over scenario S2 (an in-progress
Schedule fired 46 s ago) inserts the missed-call Alert with severity
`aviso` — not `media` (medium), which the claim requires: `aviso` is not
even one of the four severity levels. -/
theorem missed_call_severity_aviso :
    ((checkMissedCalls (fun _ => true) 46 storeS2).alertas.map
      (fun a => (a.tipo, a.severidade))) = [("nao_atende_telefone", "aviso")] ∧
    ("aviso" : String) ≠ "media" ∧
    (("aviso" : String) ∈ ["critica", "alta", "media", "baixa"]) = False := by
  refine ⟨by decide, by decide, by decide⟩

/-- C6 (amended): for each Schedule the sweep selects (`em_andamento` and
strictly older than 45 s), processing the row sets its status to
`nao_atendido` and increments its retry counter, inserts a synthetic
CallRecord with `start = now − 45`, `end = now`, `duration = 45`,
`completed = false`, inserts an Alert of kind `nao_atende_telefone` with
severity `aviso` (not `media`), and inserts a TimelineEntry; a Schedule at
exactly `scheduled-at + 45 s` is not selected. -/
theorem sweep_missed_row_effects (pushOk : String → Bool) (now : Int)
    (st : Store) (s : Agendamento) (_hsel : missedCallSelected now s = true) :
    (∀ a ∈ st.agendamentos, a.id = s.id →
       { a with status := "nao_atendido", ultimaTentativa := some now
                tentativasRealizadas := a.tentativasRealizadas + 1 } ∈
         (missedCallRow pushOk now st s).agendamentos) ∧
    (∃ h ∈ (missedCallRow pushOk now st s).historico,
       h.agendamentoId = s.id ∧ h.inicioChamada = now - 45 ∧ h.fimChamada = now ∧
       h.duracaoSegundos = 45 ∧ h.tarefaConcluida = false) ∧
    (∃ a ∈ (missedCallRow pushOk now st s).alertas,
       a.idosoId = s.idosoId ∧ a.tipo = "nao_atende_telefone" ∧
       a.severidade = "aviso") ∧
    (∃ t ∈ (missedCallRow pushOk now st s).timeline,
       t.idosoId = s.idosoId ∧ t.tipo = "ligacao" ∧ t.subtipo = "nao_atendida") ∧
    (∀ s' : Agendamento, s'.dataHoraAgendada = now - 45 →
       missedCallSelected now s' = false) := by
  have hfields := missedCallNotify_fields pushOk now
    (updateAgendamento st s.id (fun a =>
      { a with status := "nao_atendido", ultimaTentativa := some now
               tentativasRealizadas := a.tentativasRealizadas + 1 })).nextAlertaId
    ((primaryCaregiver st s.idosoId).bind (fun c => c.deviceToken))
  refine ⟨?_, ?_, ?_, ?_, ?_⟩
  · intro a ha hid
    unfold missedCallRow
    rw [(hfields _).1]
    simp only [updateAgendamento]
    have h := List.mem_map_of_mem (fun (a : Agendamento) =>
      if a.id == s.id then
        { a with status := "nao_atendido", ultimaTentativa := some now
                 tentativasRealizadas := a.tentativasRealizadas + 1 }
      else a) ha
    simpa [hid] using h
  · unfold missedCallRow
    rw [(hfields _).2.1]
    exact ⟨_, List.mem_append_right _ (List.mem_singleton_self _),
           rfl, rfl, rfl, rfl, rfl⟩
  · unfold missedCallRow
    obtain ⟨-, -, -, hal⟩ := hfields _
    exact
      let target :=
        (hal _ (List.mem_append_right _ (List.mem_singleton_self _)))
      ⟨target.choose, target.choose_spec.1, by
        obtain ⟨hmem, h1, h2, h3⟩ := target.choose_spec
        exact ⟨h1, h2, h3⟩⟩
  · unfold missedCallRow
    rw [(hfields _).2.2.1]
    exact ⟨_, List.mem_append_right _ (List.mem_singleton_self _), rfl, rfl, rfl⟩
  · intro s' hs'
    unfold missedCallSelected
    rw [hs']
    simp

/-- Witness for the amended theorem of C6 on scenario S2 at `now = 46`. -/
theorem sweep_missed_row_effects_witness :
    missedCallSelected 46 agS2 = true ∧
    (∃ a ∈ (missedCallRow (fun _ => true) 46 storeS2 agS2).alertas,
       a.idosoId = agS2.idosoId ∧ a.tipo = "nao_atende_telefone" ∧
       a.severidade = "aviso") ∧
    { agS2 with status := "nao_atendido", ultimaTentativa := some 46
                tentativasRealizadas := 1 } ∈
      (missedCallRow (fun _ => true) 46 storeS2 agS2).agendamentos :=
  ⟨by decide,
   (sweep_missed_row_effects (fun _ => true) 46 storeS2 agS2 (by decide)).2.2.1,
   (sweep_missed_row_effects (fun _ => true) 46 storeS2 agS2 (by decide)).1
     agS2 (by decide) rfl⟩

/-! ## C7 — the upload buffer is not bounded by `maxBufferSize` -/

/-- A 1600-byte device chunk (100 ms of 16 kHz mono 16-bit audio). -/
def c1600 : List Nat := List.replicate 1600 0

/-- Failing trace for the buffer bound: a first chunk at t = 100 ms flushes
and raises the in-flight flag; eleven further chunks arrive with no
upstream response, so every flush attempt is skipped and the buffer grows
to 17,600 bytes; the tick at t = 5300 ms (in-flight held past the 5 s
stuck timeout) force-clears the flag and sends the whole buffer. -/
def overflowTrace : List AudioEvent :=
  AudioEvent.chunk 100 c1600 ::
    (List.replicate 11 (AudioEvent.chunk 200 c1600) ++ [AudioEvent.tick 5300])

set_option maxRecDepth 100000 in
/-- C7 (failing input): running the upload path on `overflowTrace` reaches
a state whose unsent buffer holds 17,600 bytes — more than
`maxBufferSize = 16,000`, which the source uses only as the initial slice
capacity — and the subsequent stuck-timeout flush sends all 17,600 bytes
in one gulp, so neither the buffer occupancy nor the flush size is bounded
by T_max as the claim states. -/
theorem upload_buffer_exceeds_max :
    ((linkRun initLinkState
        (AudioEvent.chunk 100 c1600 ::
          List.replicate 11 (AudioEvent.chunk 200 c1600))).1.audioBuffer.length)
      = 17600 ∧
    ((linkRun initLinkState overflowTrace).2.map (fun b => b.length))
      = [1600, 17600] ∧
    maxBufferSize < 17600 := by
  refine ⟨by decide, by decide, by decide⟩

end Eva
